import Mathlib

/-!
# Verification of the Dashboard analytics backend (`new_app/`)

Shallow embedding of the core computation pipeline of the multi-tenant
production-analytics backend, together with proofs of the testable
properties stated in its specification.

Numeric conventions of the embedding:
* Python floats are modelled as rationals (`ℚ`); the arithmetic of the
  embedded code is the exact arithmetic of the source expressions.
* Python's built-in `round(x, 1)` (round-half-to-even) is modelled by
  `pyRound1` below.
* Python dicts keyed by strings are modelled as association lists whose
  insertion (`dictInsert`) overwrites the value at the first occurrence
  of the key and otherwise appends — exactly Python's insertion-order
  semantics.  `dictGet` returns a `none`-like default for a missing key,
  mirroring `dict.get`.
-/

namespace Dashboard

/-- Round-half-to-even on rationals (Python's `round(x)` for the integer
part), used to model `round(x, 1)` via `pyRound1`. -/
def roundHalfEven (x : ℚ) : ℤ :=
  if x - ⌊x⌋ < 1/2 then ⌊x⌋
  else if 1/2 < x - ⌊x⌋ then ⌊x⌋ + 1
  else if Even ⌊x⌋ then ⌊x⌋ else ⌊x⌋ + 1

/-- Python's `round(x, 1)`: rounding to one decimal digit, ties to even. -/
def pyRound1 (x : ℚ) : ℚ := (roundHalfEven (10 * x) : ℚ) / 10

theorem roundHalfEven_nonneg {x : ℚ} (hx : 0 ≤ x) : 0 ≤ roundHalfEven x := by
  unfold roundHalfEven
  have h0 : (0 : ℤ) ≤ ⌊x⌋ := by positivity
  split_ifs <;> omega

theorem pyRound1_nonneg {x : ℚ} (hx : 0 ≤ x) : 0 ≤ pyRound1 x := by
  unfold pyRound1
  have h : 0 ≤ roundHalfEven (10 * x) := roundHalfEven_nonneg (by positivity)
  positivity

/-! ## Gap-based downtime detection
    (`new_app/services/data/downtime_calculator.py`)

Timestamps (`detected_at`, `start_time`, `end_time`) are rationals
counting seconds; durations are in seconds as in the source. -/

/-- A detection row as consumed by `calculate_gap_downtimes`: the typed
embedding always carries the `detected_at` and `line_id` columns, so the
source's required-columns guard is satisfied by construction. -/
structure GapRow where
  line_id : Int
  detected_at : ℚ
  deriving DecidableEq, Repr

/-- One row of the cached `production_line` table, restricted to the
fields the verified components read.  `performance` is `Option` because
the source reads it with `line_meta.get("performance", 0) or 0`. -/
structure LineMeta where
  performance : Option ℚ
  downtime_threshold : Option Int
  auto_detect_downtime : Bool
  deriving DecidableEq, Repr

/-- A downtime event as produced by `_make_event` (and, for DB events,
as consumed by `remove_overlapping`). -/
structure DtEvent where
  start_time : ℚ
  end_time : ℚ
  duration : ℚ
  reason_code : Option Int
  line_id : Int
  source : String
  deriving DecidableEq, Repr

/-- `_make_event(start, end, line_id)`. -/
def mkEvent (s e : ℚ) (lid : Int) : DtEvent :=
  { start_time := s, end_time := e, duration := e - s,
    reason_code := none, line_id := lid, source := "calculated" }

/-- Association-list lookup for the cached `production_lines` dict. -/
def lookupLine : List (Int × LineMeta) → Int → Option LineMeta
  | [], _ => none
  | (k, v) :: rest, lid => if k = lid then some v else lookupLine rest lid

/-- Effective threshold: `threshold_override or line_meta.get("downtime_threshold")`
followed by `if not threshold or int(threshold) <= 0: continue`.
Python's `or` falls through on the falsy override values `None` and `0`. -/
def effectiveThreshold (override : Option Int) (meta : LineMeta) : Option Int :=
  let thr : Option Int :=
    match override with
    | some v => if v = 0 then meta.downtime_threshold else some v
    | none => meta.downtime_threshold
  match thr with
  | none => none
  | some t => if t ≤ 0 then none else some t

/-- Stable insertion into a list sorted by `detected_at`
(modelling `line_df.sort_values("detected_at")`). -/
def insertByTime (d : GapRow) : List GapRow → List GapRow
  | [] => [d]
  | e :: rest =>
      if d.detected_at ≤ e.detected_at then d :: e :: rest
      else e :: insertByTime d rest

/-- Sort detections of one line by `detected_at`. -/
def sortByTime : List GapRow → List GapRow
  | [] => []
  | d :: rest => insertByTime d (sortByTime rest)

/-- The consecutive-pairs walk of `calculate_gap_downtimes`: `cur` is the
`(current_start, current_end)` pair of the open downtime (if any); an
above-threshold gap opens or extends it, a below-threshold gap closes it,
and a trailing open downtime is closed at the end of the loop. -/
def gapWalk (thr : Int) (lid : Int) (cur : Option (ℚ × ℚ)) :
    List ℚ → List DtEvent
  | t1 :: t2 :: rest =>
      if (thr : ℚ) < t2 - t1 then
        let s := match cur with | none => t1 | some p => p.1
        gapWalk thr lid (some (s, t2)) (t2 :: rest)
      else
        match cur with
        | none => gapWalk thr lid none (t2 :: rest)
        | some p => mkEvent p.1 p.2 lid :: gapWalk thr lid none (t2 :: rest)
  | _ =>
      match cur with
      | none => []
      | some p => [mkEvent p.1 p.2 lid]

/-- Per-line body of the `for line_id in line_ids` loop of
`calculate_gap_downtimes`: skip lines absent from the cache, lines with
`auto_detect_downtime` off, lines with no positive effective threshold,
and lines with fewer than two detections. -/
def lineGapEvents (lines : List (Int × LineMeta)) (dets : List GapRow)
    (override : Option Int) (lid : Int) : List DtEvent :=
  match lookupLine lines lid with
  | none => []
  | some meta =>
      if !meta.auto_detect_downtime then []
      else
        match effectiveThreshold override meta with
        | none => []
        | some thr =>
            let lineDf := dets.filter (fun d => d.line_id = lid)
            if lineDf.length < 2 then []
            else
              let times := (sortByTime lineDf).map GapRow.detected_at
              gapWalk thr lid none times

/-- `calculate_gap_downtimes(detections_df, line_ids, threshold_override)`. -/
def calculate_gap_downtimes (lines : List (Int × LineMeta))
    (dets : List GapRow) (line_ids : List Int)
    (override : Option Int) : List DtEvent :=
  if dets = [] then []
  else line_ids.flatMap (lineGapEvents lines dets override)

/-- The spec's notion of two half-open intervals `[s1, e1)` and
`[s2, e2)` overlapping. -/
def intervalsOverlap (s1 e1 s2 e2 : ℚ) : Prop := s1 < e2 ∧ s2 < e1

/-- Per-row keep decision of `remove_overlapping`: a calculated event is
kept unless some DB event on the same line satisfies
`calc.start_time < db.end_time and calc.end_time > db.start_time`. -/
def keepCalc (db : List DtEvent) (c : DtEvent) : Bool :=
  let lineDb := db.filter (fun d => d.line_id = c.line_id)
  if lineDb.isEmpty then true
  else
    !(lineDb.any (fun d =>
        decide (c.start_time < d.end_time) && decide (d.start_time < c.end_time)))

/-- `remove_overlapping(calculated_df, db_df)`. -/
def remove_overlapping (calcd db : List DtEvent) : List DtEvent :=
  if calcd = [] ∨ db = [] then calcd
  else calcd.filter (keepCalc db)

/-- C2: on an input restricted to one cached line with
`auto_detect_downtime` on and a positive effective threshold `t`,
consisting of exactly two rows `g` seconds apart,
`calculate_gap_downtimes` emits exactly one downtime event iff `g > t`,
and that event has `duration == g`, `reason_code None` and
`source "calculated"`. -/
theorem C2_gap_single_pair (lines : List (Int × LineMeta))
    (d1 d2 : GapRow) (lid : Int) (meta : LineMeta)
    (override : Option Int) (t : Int)
    (hmeta : lookupLine lines lid = some meta)
    (hauto : meta.auto_detect_downtime = true)
    (hthr : effectiveThreshold override meta = some t)
    (hl1 : d1.line_id = lid) (hl2 : d2.line_id = lid)
    (hord : d1.detected_at ≤ d2.detected_at) :
    calculate_gap_downtimes lines [d1, d2] [lid] override =
      (if (t : ℚ) < d2.detected_at - d1.detected_at then
        [{ start_time := d1.detected_at, end_time := d2.detected_at,
           duration := d2.detected_at - d1.detected_at,
           reason_code := none, line_id := lid, source := "calculated" }]
      else []) := by
  have hne : ¬([d1, d2] = ([] : List GapRow)) := by simp
  simp only [calculate_gap_downtimes, if_neg hne, List.flatMap_cons,
    List.flatMap_nil, List.append_nil, lineGapEvents, hmeta, hauto,
    Bool.not_true, Bool.false_eq_true, if_false, hthr]
  simp only [List.filter, hl1, hl2, decide_True, sortByTime, insertByTime,
    if_pos hord, List.map_cons, List.map_nil, List.length_cons,
    List.length_nil]
  norm_num [gapWalk, mkEvent]

/-- Witness for C2 at a concrete input: two detections on line 1 at
seconds 0 and 400, threshold 300 — one calculated event of duration 400. -/
theorem C2_gap_single_pair_witness :
    calculate_gap_downtimes [(1, ⟨some 1, some 300, true⟩)]
      [⟨1, 0⟩, ⟨1, 400⟩] [1] none =
      (if ((300 : Int) : ℚ) < (400 : ℚ) - (0 : ℚ) then
        [{ start_time := (0 : ℚ), end_time := (400 : ℚ),
           duration := (400 : ℚ) - (0 : ℚ),
           reason_code := none, line_id := 1, source := "calculated" }]
      else []) :=
  C2_gap_single_pair [(1, ⟨some 1, some 300, true⟩)] ⟨1, 0⟩ ⟨1, 400⟩ 1
    ⟨some 1, some 300, true⟩ none 300 (by decide) rfl (by decide) rfl rfl
    (by norm_num)

/-- C3: `remove_overlapping` returns a sublist of the calculated events
(each kept event unchanged), and no kept event's `[start, end)` interval
overlaps the `[start, end)` interval of a DB event on the same line. -/
theorem C3_remove_overlapping_sound (calcd db : List DtEvent) :
    (remove_overlapping calcd db).Sublist calcd ∧
    ∀ c ∈ remove_overlapping calcd db, ∀ d ∈ db,
      d.line_id = c.line_id →
      ¬ intervalsOverlap c.start_time c.end_time d.start_time d.end_time := by
  unfold remove_overlapping
  by_cases h : calcd = [] ∨ db = []
  · rw [if_pos h]
    refine ⟨List.Sublist.refl _, ?_⟩
    intro c hc d hd hline
    rcases h with h | h
    · subst h; simp at hc
    · subst h; simp at hd
  · rw [if_neg h]
    refine ⟨List.filter_sublist _, ?_⟩
    intro c hc d hd hline hover
    rw [List.mem_filter] at hc
    have hkeep := hc.2
    unfold keepCalc at hkeep
    have hdline : d ∈ db.filter (fun e => e.line_id = c.line_id) := by
      rw [List.mem_filter]
      exact ⟨hd, by simp [hline]⟩
    by_cases hemp : (db.filter (fun e => e.line_id = c.line_id)).isEmpty
    · rw [List.isEmpty_iff] at hemp
      rw [hemp] at hdline
      simp at hdline
    · rw [if_neg hemp, Bool.not_eq_true', List.any_eq_false] at hkeep
      have := hkeep d hdline
      rcases hover with ⟨h1, h2⟩
      simp [h1, h2] at this

/-- Witness for C3 at a concrete input: a calculated event on line 1 over
`[0, 10)` survives a DB event on line 1 over `[20, 30)` and indeed does
not overlap it. -/
theorem C3_remove_overlapping_sound_witness :
    ¬ intervalsOverlap (0 : ℚ) 10 20 30 :=
  (C3_remove_overlapping_sound
      [{ start_time := 0, end_time := 10, duration := 10,
         reason_code := none, line_id := 1, source := "calculated" }]
      [{ start_time := 20, end_time := 30, duration := 10,
         reason_code := none, line_id := 1, source := "db" }]).2
    { start_time := 0, end_time := 10, duration := 10,
      reason_code := none, line_id := 1, source := "calculated" }
    (by decide)
    { start_time := 20, end_time := 30, duration := 10,
      reason_code := none, line_id := 1, source := "db" }
    (by decide) rfl

/-! ## Partition management
    (`new_app/services/data/partition_manager.py`)

`datetime.date` values are embedded as year/month/day triples.  The
source's `(current + timedelta(days=32)).replace(day=1)` always lands on
the first day of the following month, which `nextY`/`nextM` model. -/

/-- A calendar date (`datetime.date`). -/
structure PDate where
  year : Int
  month : Int
  day : Int
  deriving DecidableEq, Repr

/-- Calendar validity of the fields (the `date` constructor enforces it). -/
def PDate.valid (d : PDate) : Prop :=
  1 ≤ d.month ∧ d.month ≤ 12 ∧ 1 ≤ d.day ∧ d.day ≤ 31

instance (d : PDate) : Decidable d.valid := by
  unfold PDate.valid; infer_instance

/-- Lexicographic `<=` on dates, as Python compares `date` values. -/
def PDate.le (a b : PDate) : Prop :=
  a.year < b.year ∨
    (a.year = b.year ∧
      (a.month < b.month ∨ (a.month = b.month ∧ a.day ≤ b.day)))

instance (a b : PDate) : Decidable (PDate.le a b) := by
  unfold PDate.le; infer_instance

/-- Year of the month following month `m` of year `y`. -/
def nextY (y m : Int) : Int := if m = 12 then y + 1 else y

/-- Month number of the month following month `m`. -/
def nextM (m : Int) : Int := if m = 12 then 1 else m + 1

/-- Partition name `p{YYYY}{MM:02d}`. -/
def partName (y m : Int) : String :=
  "p" ++ toString y ++ (if m < 10 then "0" ++ toString m else toString m)

theorem nextM_ge_one {m : Int} (h1 : 1 ≤ m) : 1 ≤ nextM m := by
  unfold nextM; split <;> omega

theorem nextM_le_twelve {m : Int} (h2 : m ≤ 12) : nextM m ≤ 12 := by
  unfold nextM; split <;> omega

theorem next_index {y m : Int} : nextY y m * 12 + nextM m = y * 12 + m + 1 := by
  unfold nextY nextM; split <;> omega

/-- The `while current <= end_date` loop of `_partition_names_for_range`,
iterating over the first days of consecutive months.  The month-bound
arguments record that `m` stays a calendar month, which (with the
validity of `endD`) makes the loop terminate. -/
def partNamesAux (endD : PDate) (he : endD.valid) :
    (y m : Int) → 1 ≤ m → m ≤ 12 → List String
  | y, m, hm1, hm2 =>
      if h : PDate.le ⟨y, m, 1⟩ endD then
        partName y m ::
          partNamesAux endD he (nextY y m) (nextM m)
            (nextM_ge_one hm1) (nextM_le_twelve hm2)
      else []
  termination_by y m _ _ => (endD.year * 12 + endD.month + 1 - (y * 12 + m)).toNat
  decreasing_by
    rcases he with ⟨he1, he2, he3, he4⟩
    unfold PDate.le at h
    dsimp only at h
    rw [next_index]
    omega

/-- `PartitionManager._partition_names_for_range(start_date, end_date)`:
`current = start_date.replace(day=1)`, then walk months while
`current <= end_date`. -/
def partitionNamesForRange (s e : PDate) (hs : s.valid) (he : e.valid) :
    List String :=
  partNamesAux e he s.year s.month hs.1 hs.2.1

/-- Number of calendar months met by `[s, e]` (difference of month
indices plus one, clipped at zero). -/
def monthsCovered (s e : PDate) : ℕ :=
  (e.year * 12 + e.month + 1 - (s.year * 12 + s.month)).toNat

/-- `PartitionManager.get_partition_hint(start_date, end_date)`:
empty string when there are no partition names or more than 12 of them,
else `"PARTITION (p..., ...)"`. -/
def getPartitionHint (s e : PDate) (hs : s.valid) (he : e.valid) : String :=
  if partitionNamesForRange s e hs he = [] ∨
      (partitionNamesForRange s e hs he).length > 12 then ""
  else
    "PARTITION (" ++
      String.intercalate ", " (partitionNamesForRange s e hs he) ++ ")"

theorem le_first_iff {y m : Int} (hm1 : 1 ≤ m) (hm2 : m ≤ 12)
    {endD : PDate} (he : endD.valid) :
    PDate.le ⟨y, m, 1⟩ endD ↔ y * 12 + m ≤ endD.year * 12 + endD.month := by
  rcases he with ⟨he1, he2, he3, he4⟩
  unfold PDate.le
  dsimp only
  constructor <;> intro h <;> omega

theorem partNamesAux_length (endD : PDate) (he : endD.valid) (y m : Int)
    (hm1 : 1 ≤ m) (hm2 : m ≤ 12) :
    (partNamesAux endD he y m hm1 hm2).length =
      (endD.year * 12 + endD.month + 1 - (y * 12 + m)).toNat := by
  have H : ∀ (k : ℕ) (y m : Int) (hm1 : 1 ≤ m) (hm2 : m ≤ 12),
      (endD.year * 12 + endD.month + 1 - (y * 12 + m)).toNat ≤ k →
      (partNamesAux endD he y m hm1 hm2).length =
        (endD.year * 12 + endD.month + 1 - (y * 12 + m)).toNat := by
    intro k
    induction k with
    | zero =>
        intro y m hm1 hm2 hk
        rw [partNamesAux]
        split
        · rename_i h
          rw [le_first_iff hm1 hm2 he] at h
          omega
        · rename_i h
          rw [le_first_iff hm1 hm2 he] at h
          simp only [List.length_nil]
          omega
    | succ n ihn =>
        intro y m hm1 hm2 hk
        rw [partNamesAux]
        split
        · rename_i h
          rw [le_first_iff hm1 hm2 he] at h
          rw [List.length_cons,
            ihn (nextY y m) (nextM m) (nextM_ge_one hm1) (nextM_le_twelve hm2)
              (by rw [next_index]; omega),
            next_index]
          omega
        · rename_i h
          rw [le_first_iff hm1 hm2 he] at h
          simp only [List.length_nil]
          omega
  exact H _ y m hm1 hm2 le_rfl

/-- C4: for valid dates with `start_date <= end_date`, the partition
hint names exactly one partition per month met by the range; ranges of
at most 12 months always give a non-empty hint, ranges of more than 12
months give the empty string. -/
theorem C4_partition_hint (s e : PDate) (hs : s.valid) (he : e.valid)
    (hle : PDate.le s e) :
    (partitionNamesForRange s e hs he).length = monthsCovered s e ∧
    (monthsCovered s e ≤ 12 →
      getPartitionHint s e hs he =
        "PARTITION (" ++
          String.intercalate ", " (partitionNamesForRange s e hs he) ++ ")" ∧
      getPartitionHint s e hs he ≠ "") ∧
    (12 < monthsCovered s e → getPartitionHint s e hs he = "") := by
  have hlen : (partitionNamesForRange s e hs he).length = monthsCovered s e :=
    partNamesAux_length e he s.year s.month hs.1 hs.2.1
  have h1 : 1 ≤ monthsCovered s e := by
    have hs2 := hs.2.1
    have he1 := he.1
    unfold PDate.le at hle
    unfold monthsCovered
    omega
  refine ⟨hlen, ?_, ?_⟩
  · intro h12
    have hcond : ¬(partitionNamesForRange s e hs he = [] ∨
        (partitionNamesForRange s e hs he).length > 12) := by
      push_neg
      refine ⟨?_, by omega⟩
      intro hnil
      rw [hnil] at hlen
      simp only [List.length_nil] at hlen
      omega
    unfold getPartitionHint
    rw [if_neg hcond]
    refine ⟨rfl, ?_⟩
    intro hstr
    have hl := congrArg String.length hstr
    simp only [String.length_append] at hl
    have h11 : ("PARTITION (" : String).length = 11 := rfl
    have h0 : ("" : String).length = 0 := rfl
    omega
  · intro h12
    unfold getPartitionHint
    rw [if_pos (Or.inr (by omega))]

/-- Start date of the C4 witness scenario. -/
def c4Start : PDate := ⟨2026, 1, 15⟩

/-- End date of the C4 witness scenario. -/
def c4End : PDate := ⟨2026, 3, 2⟩

theorem c4Start_valid : c4Start.valid := by decide

theorem c4End_valid : c4End.valid := by decide

/-- Witness for C4 at a concrete 3-month range (2026-01-15 to
2026-03-02): a non-empty hint listing the covered partitions. -/
theorem C4_partition_hint_witness :
    getPartitionHint c4Start c4End c4Start_valid c4End_valid =
      "PARTITION (" ++
        String.intercalate ", "
          (partitionNamesForRange c4Start c4End c4Start_valid c4End_valid) ++
        ")" ∧
    getPartitionHint c4Start c4End c4Start_valid c4End_valid ≠ "" :=
  (C4_partition_hint c4Start c4End c4Start_valid c4End_valid
      (by decide)).2.1 (by decide)

/-! ## Repository pagination
    (`new_app/services/data/detection_repository.py` and
     `new_app/services/data/downtime_repository.py`)

The database is modelled as a function from `(cursor, limit)` to the
batch of rows it returns for
`SELECT ... WHERE id > :cursor ... LIMIT :limit`.  A query error
(`except: break`) behaves like an empty batch for the purpose of the
accumulated result.  Rows are abstract; `idOf` projects the
`detection_id` / `event_id` column used as the cursor. -/

/-- `int(batch_df["id_column"].max())` for a non-empty batch. -/
def maxId {α : Type} (idOf : α → Int) : List α → Int
  | [] => 0
  | r :: rest => (rest.map idOf).foldl max (idOf r)

/-- The shared pagination loop of both repositories:
`while total_fetched < cap`, `batch_limit = min(BATCH_SIZE, remaining)`,
break on an empty batch, advance the cursor to the batch's max id,
break when a batch is shorter than the requested limit.
`remaining` is `cap - total_fetched`. -/
def fetchLoopAux {α : Type} (idOf : α → Int) (db : Int → ℕ → List α)
    (bs : ℕ) (cursor : Int) (remaining : ℕ) : List α :=
  if remaining = 0 then []
  else if hr : (db cursor (min bs remaining)).isEmpty then []
  else if (db cursor (min bs remaining)).length < min bs remaining then
    db cursor (min bs remaining)
  else
    db cursor (min bs remaining) ++
      fetchLoopAux idOf db bs (maxId idOf (db cursor (min bs remaining)))
        (remaining - (db cursor (min bs remaining)).length)
  termination_by remaining
  decreasing_by
    simp only [List.isEmpty_iff] at hr
    have hpos : 0 < (db cursor (min bs remaining)).length :=
      List.length_pos.mpr hr
    omega

/-- `QueryBuilder.DEFAULT_BATCH_SIZE` (= `DetectionRepository.BATCH_SIZE`). -/
def DEFAULT_BATCH_SIZE : ℕ := 500000

/-- `DetectionRepository.MAX_TOTAL_ROWS`. -/
def DETECTION_MAX_TOTAL_ROWS : ℕ := 2000000

/-- `DowntimeRepository.BATCH_SIZE`. -/
def DOWNTIME_BATCH_SIZE : ℕ := 10000

/-- `DowntimeRepository.MAX_TOTAL_ROWS`. -/
def DOWNTIME_MAX_TOTAL_ROWS : ℕ := 100000

/-- `DetectionRepository.fetch_detections` (single table, default cap). -/
def fetch_detections {α : Type} (idOf : α → Int)
    (db : Int → ℕ → List α) : List α :=
  fetchLoopAux idOf db DEFAULT_BATCH_SIZE 0 DETECTION_MAX_TOTAL_ROWS

/-- `DowntimeRepository.fetch_downtime` (single table, default cap). -/
def fetch_downtime {α : Type} (idOf : α → Int)
    (db : Int → ℕ → List α) : List α :=
  fetchLoopAux idOf db DOWNTIME_BATCH_SIZE 0 DOWNTIME_MAX_TOTAL_ROWS

/-- A database honours `LIMIT`: a batch never exceeds the requested
limit. -/
def honoursLimit {α : Type} (db : Int → ℕ → List α) : Prop :=
  ∀ c l, (db c l).length ≤ l

/-- Ids are strictly increasing within every batch and are greater than
the cursor of the query that produced the batch (the invariant the
monotone keys of the per-line tables provide). -/
def idsStrictMono {α : Type} (idOf : α → Int)
    (db : Int → ℕ → List α) : Prop :=
  ∀ c l, ((db c l).map idOf).Chain' (· < ·) ∧ ∀ r ∈ db c l, c < idOf r

theorem fetchLoopAux_length_le {α : Type} (idOf : α → Int)
    (db : Int → ℕ → List α) (bs : ℕ)
    (hdb : honoursLimit db) (cursor : Int) (remaining : ℕ) :
    (fetchLoopAux idOf db bs cursor remaining).length ≤ remaining := by
  have H : ∀ (k : ℕ) (cursor : Int) (remaining : ℕ), remaining ≤ k →
      (fetchLoopAux idOf db bs cursor remaining).length ≤ remaining := by
    intro k
    induction k with
    | zero =>
        intro cursor remaining hk
        have h0 : remaining = 0 := by omega
        subst h0
        rw [fetchLoopAux]
        simp
    | succ n ih =>
        intro cursor remaining hk
        rw [fetchLoopAux]
        split
        · simp
        · split
          · simp
          · rename_i h0 hr
            simp only [List.isEmpty_iff] at hr
            have hlen := hdb cursor (min bs remaining)
            split
            · omega
            · rename_i hlong
              rw [List.length_append]
              have hpos : 0 < (db cursor (min bs remaining)).length :=
                List.length_pos.mpr hr
              have hrec := ih (maxId idOf (db cursor (min bs remaining)))
                (remaining - (db cursor (min bs remaining)).length) (by omega)
              omega
  exact H remaining cursor remaining le_rfl

/-- C7: against any database that honours `LIMIT` and returns strictly
increasing ids, both pagination loops terminate (they are total
functions of the embedding) and return at most the configured caps —
2,000,000 detection rows fetched with batch limits of at most 500,000,
and 100,000 downtime rows with batch limits of at most 10,000; an empty
first batch yields an empty result and a short first batch is returned
as the whole result. -/
theorem C7_pagination_caps {α β : Type} (idOfD : α → Int)
    (idOfE : β → Int) (dbD : Int → ℕ → List α) (dbE : Int → ℕ → List β)
    (hD : honoursLimit dbD) (hE : honoursLimit dbE)
    (hmD : idsStrictMono idOfD dbD) (hmE : idsStrictMono idOfE dbE) :
    (fetch_detections idOfD dbD).length ≤ 2000000 ∧
    (fetch_downtime idOfE dbE).length ≤ 100000 ∧
    (∀ r, min DEFAULT_BATCH_SIZE r ≤ 500000 ∧
      min DOWNTIME_BATCH_SIZE r ≤ 10000) ∧
    (dbD 0 500000 = [] → fetch_detections idOfD dbD = []) ∧
    ((dbD 0 500000).length < 500000 →
      fetch_detections idOfD dbD = dbD 0 500000) := by
  refine ⟨fetchLoopAux_length_le idOfD dbD _ hD 0 _,
    fetchLoopAux_length_le idOfE dbE _ hE 0 _, ?_, ?_, ?_⟩
  · intro r
    constructor <;> simp [DEFAULT_BATCH_SIZE, DOWNTIME_BATCH_SIZE] <;> omega
  · intro hnil
    have hmin : min DEFAULT_BATCH_SIZE DETECTION_MAX_TOTAL_ROWS = 500000 := by
      norm_num [DEFAULT_BATCH_SIZE, DETECTION_MAX_TOTAL_ROWS]
    have hnil' :
        (dbD 0 (min DEFAULT_BATCH_SIZE DETECTION_MAX_TOTAL_ROWS)).isEmpty
          = true := by
      rw [hmin, hnil]; rfl
    rw [fetch_detections, fetchLoopAux,
      if_neg (by norm_num [DETECTION_MAX_TOTAL_ROWS]), dif_pos hnil']
  · intro hshort
    have hmin : min DEFAULT_BATCH_SIZE DETECTION_MAX_TOTAL_ROWS = 500000 := by
      norm_num [DEFAULT_BATCH_SIZE, DETECTION_MAX_TOTAL_ROWS]
    by_cases hnil : dbD 0 500000 = []
    · have hnil' :
          (dbD 0 (min DEFAULT_BATCH_SIZE DETECTION_MAX_TOTAL_ROWS)).isEmpty
            = true := by
        rw [hmin, hnil]; rfl
      rw [fetch_detections, fetchLoopAux,
        if_neg (by norm_num [DETECTION_MAX_TOTAL_ROWS]), dif_pos hnil', hnil]
    · have hne :
          ¬ (dbD 0 (min DEFAULT_BATCH_SIZE DETECTION_MAX_TOTAL_ROWS)).isEmpty
            = true := by
        rw [hmin]
        simp [List.isEmpty_iff, hnil]
      rw [fetch_detections, fetchLoopAux,
        if_neg (by norm_num [DETECTION_MAX_TOTAL_ROWS]), dif_neg hne, hmin,
        if_pos hshort]

/-- Witness for C7 at the empty database: both loops return no rows,
within the caps. -/
theorem C7_pagination_caps_witness :
    (fetch_detections (fun i : Int => i) (fun _ _ => [])).length ≤ 2000000 ∧
    (fetch_downtime (fun i : Int => i) (fun _ _ => [])).length ≤ 100000 ∧
    (∀ r, min DEFAULT_BATCH_SIZE r ≤ 500000 ∧
      min DOWNTIME_BATCH_SIZE r ≤ 10000) ∧
    ((fun (_ : Int) (_ : ℕ) => ([] : List Int)) 0 500000 = [] →
      fetch_detections (fun i : Int => i) (fun _ _ => []) = []) ∧
    (((fun (_ : Int) (_ : ℕ) => ([] : List Int)) 0 500000).length < 500000 →
      fetch_detections (fun i : Int => i) (fun _ _ => []) =
        (fun (_ : Int) (_ : ℕ) => ([] : List Int)) 0 500000) :=
  C7_pagination_caps (fun i : Int => i) (fun i : Int => i)
    (fun _ _ => []) (fun _ _ => [])
    (fun _ _ => by simp) (fun _ _ => by simp)
    (fun _ _ => ⟨by simp, by simp⟩) (fun _ _ => ⟨by simp, by simp⟩)

/-! ## OEE computation
    (`new_app/services/widgets/types/kpi_oee.py` and
     `new_app/services/widgets/helpers.py`)

DataFrames are embedded as typed row lists plus explicit flags for the
column-presence tests the source performs (`"area_type" in df.columns`,
`"line_id" in df.columns`, `"duration" in downtime_df.columns`).
Shift times-of-day are `(hour, minute)` pairs — the `hasattr(value,
"hour")` branch of `_to_minutes`. -/

/-- One row of the cached `area` table (fields the OEE path reads). -/
structure Area where
  area_id : Int
  line_id : Int
  area_type : String
  deriving DecidableEq, Repr

/-- One row of the cached `shift` table (fields the OEE path reads). -/
structure Shift where
  start_time : Option (Int × Int)
  end_time : Option (Int × Int)
  is_overnight : Bool
  deriving DecidableEq, Repr

/-- The MetadataCache snapshot consumed by the OEE path and the gap
calculator. -/
structure Cache where
  lines : List (Int × LineMeta)
  areas : List Area
  shifts : List (Int × Shift)
  deriving Repr

/-- Association-list lookup for the cached `shifts` dict. -/
def lookupShift : List (Int × Shift) → Int → Option Shift
  | [], _ => none
  | (k, v) :: rest, sid => if k = sid then some v else lookupShift rest sid

/-- A detection row as viewed by `_compute_oee`. -/
structure OeeRow where
  line_id : Int
  area_type : String
  deriving DecidableEq, Repr

/-- The enriched detection DataFrame as viewed by `_compute_oee`. -/
structure OeeFrame where
  hasAreaType : Bool
  hasLineId : Bool
  rows : List OeeRow
  deriving DecidableEq, Repr

/-- A unified downtime row as viewed by `_compute_oee`. -/
structure DownRow where
  line_id : Int
  duration : ℚ
  deriving DecidableEq, Repr

/-- The unified downtime DataFrame as viewed by `_compute_oee`. -/
structure DownFrame where
  hasDuration : Bool
  hasLineId : Bool
  rows : List DownRow
  deriving DecidableEq, Repr

/-- The dict returned by `_compute_oee`. -/
structure OeeResult where
  oee : ℚ
  availability : ℚ
  performance : ℚ
  quality : ℚ
  scheduled_minutes : ℚ
  downtime_minutes : ℚ
  deriving DecidableEq, Repr

/-- Parsed `daterange` filter value as read by `_count_days`
(`none` models a missing or falsy entry). -/
structure DateRangeParam where
  start_date : Option PDate
  end_date : Option PDate
  deriving DecidableEq, Repr

/-- The cleaned filter params as read by `calculate_scheduled_minutes`. -/
structure Params where
  shift_id : Option Int
  daterange : Option DateRangeParam
  deriving DecidableEq, Repr

/-- Days-from-civil (proleptic Gregorian day number), modelling
`datetime.date` subtraction: `(e - s).days = daysFromCivil e -
daysFromCivil s`. -/
def daysFromCivil (d : PDate) : Int :=
  let y := if d.month ≤ 2 then d.year - 1 else d.year
  let era := (if 0 ≤ y then y else y - 399) / 400
  let yoe := y - era * 400
  let doy := (153 * (d.month + (if 2 < d.month then -3 else 9)) + 2) / 5
    + d.day - 1
  let doe := yoe * 365 + yoe / 4 - yoe / 100 + doy
  era * 146097 + doe - 719468

/-- `_count_days(cleaned)`: calendar days spanned by the daterange
filter, at least 1. -/
def countDays (p : Params) : Int :=
  match p.daterange with
  | none => 1
  | some dr =>
      match dr.start_date, dr.end_date with
      | some sd, some ed => max 1 (daysFromCivil ed - daysFromCivil sd + 1)
      | _, _ => 1

/-- `_get_shift_duration_minutes(shift)`: overnight shifts contribute
`(1440 - start) + end` minutes. -/
def shiftDurationMinutes (s : Shift) : ℚ :=
  match s.start_time, s.end_time with
  | some st, some et =>
      let startM : ℚ := st.1 * 60 + st.2
      let endM : ℚ := et.1 * 60 + et.2
      if s.is_overnight = true ∨ endM ≤ startM then (24 * 60 - startM) + endM
      else endM - startM
  | _, _ => 0

/-- Body shared by both branches of `calculate_scheduled_minutes` once
the shift selection is resolved: sum the daily durations and multiply by
the (≥ 1) day count. -/
def scheduledFromSelected (selected : List Shift) (p : Params) : ℚ :=
  if selected = [] then 0
  else
    if (selected.map shiftDurationMinutes).sum ≤ 0 then 0
    else (selected.map shiftDurationMinutes).sum * ((max 1 (countDays p) : Int) : ℚ)

/-- `calculate_scheduled_minutes(cleaned)`: a selected shift (`shift_id`
truthy) restricts to that shift — an unknown id gives 0 — otherwise all
active shifts are summed. -/
def calculateScheduledMinutes (cache : Cache) (p : Params) : ℚ :=
  match p.shift_id with
  | some sid =>
      if sid ≠ 0 then
        match lookupShift cache.shifts sid with
        | none => 0
        | some s => scheduledFromSelected [s] p
      else scheduledFromSelected (cache.shifts.map Prod.snd) p
  | none => scheduledFromSelected (cache.shifts.map Prod.snd) p

/-- `MetadataCache.get_areas_by_line(line_id)`. -/
def getAreasByLine (cache : Cache) (lid : Int) : List Area :=
  cache.areas.filter (fun a => a.line_id = lid)

/-- `get_lines_with_input_output(line_ids)`: lines having both an
`input` and an `output` area. -/
def getLinesWithInputOutput (cache : Cache) (lineIds : List Int) : List Int :=
  lineIds.filter (fun lid =>
    ((getAreasByLine cache lid).map Area.area_type).contains "input" &&
      ((getAreasByLine cache lid).map Area.area_type).contains "output")

/-- Per-line downtime minutes used by the performance term
(`line_dt_min` in `_compute_oee`, with the source's column and
emptiness guards). -/
def lineDowntimeMinutes (dtf : DownFrame) (lid : Int) : ℚ :=
  if dtf.rows ≠ [] ∧ dtf.hasLineId then
    if (dtf.rows.filter (fun d => d.line_id = lid)) ≠ [] ∧ dtf.hasDuration then
      ((dtf.rows.filter (fun d => d.line_id = lid)).map DownRow.duration).sum / 60
    else 0
  else 0

/-- `total_expected` of `_compute_oee`: sum over the queried lines of
`perf_rate * max(0, scheduled - line_downtime)`, skipping lines missing
from the cache or with a non-positive rate. -/
def totalExpected (cache : Cache) (dtf : DownFrame)
    (linesQueried : List Int) (sched : ℚ) : ℚ :=
  (linesQueried.map (fun lid =>
    match lookupLine cache.lines lid with
    | none => 0
    | some meta =>
        if meta.performance.getD 0 ≤ 0 then 0
        else meta.performance.getD 0 *
          max 0 (sched - lineDowntimeMinutes dtf lid))).sum

/-- `_compute_oee(ctx)`: the core OEE calculation shared by `KpiOee`,
`KpiAvailability`, `KpiPerformance` and `KpiQuality`. -/
def computeOee (cache : Cache) (df : OeeFrame) (dtf : DownFrame)
    (linesQueried : List Int) (p : Params) : OeeResult :=
  if df.rows ≠ [] ∧ df.hasAreaType = true then
    let salida : ℚ := ((df.rows.filter (fun r => r.area_type = "output")).length : ℚ)
    let dualLines := getLinesWithInputOutput cache linesQueried
    let quality : ℚ :=
      if dualLines ≠ [] ∧ df.hasLineId = true then
        let dualDf := df.rows.filter (fun r => dualLines.contains r.line_id)
        let entrada : ℚ := ((dualDf.filter (fun r => r.area_type = "input")).length : ℚ)
        let salidaQ : ℚ := ((dualDf.filter (fun r => r.area_type = "output")).length : ℚ)
        if 0 < entrada then min 100 (pyRound1 (salidaQ / entrada * 100))
        else 100
      else 100
    let sched : ℚ := calculateScheduledMinutes cache p
    let dtm : ℚ :=
      if dtf.rows ≠ [] ∧ dtf.hasDuration = true then
        (dtf.rows.map DownRow.duration).sum / 60
      else 0
    let availability : ℚ :=
      if 0 < sched then
        max 0 (min 100 (pyRound1 ((sched - dtm) / sched * 100)))
      else 0
    let performance : ℚ :=
      if 0 < max 0 (sched - dtm) ∧ df.hasLineId = true then
        if 0 < totalExpected cache dtf linesQueried sched then
          min 100 (pyRound1 (salida / totalExpected cache dtf linesQueried sched * 100))
        else 0
      else 0
    let oee : ℚ :=
      if 0 < availability ∧ 0 < performance ∧ 0 < quality then
        pyRound1 ((availability / 100) * (performance / 100) * (quality / 100) * 100)
      else 0
    { oee := oee, availability := availability, performance := performance,
      quality := quality, scheduled_minutes := pyRound1 sched,
      downtime_minutes := pyRound1 dtm }
  else
    { oee := 0, availability := 0, performance := 0, quality := 0,
      scheduled_minutes := pyRound1 0, downtime_minutes := pyRound1 0 }

theorem min100_bounds {x : ℚ} (hx : 0 ≤ x) :
    0 ≤ min 100 x ∧ min 100 x ≤ 100 :=
  ⟨le_min (by norm_num) hx, min_le_left _ _⟩

theorem clamp_bounds (x : ℚ) :
    0 ≤ max 0 (min 100 x) ∧ max 0 (min 100 x) ≤ 100 :=
  ⟨le_max_left _ _, max_le (by norm_num) (min_le_left _ _)⟩

/-- C1: on a non-empty enriched detection set that carries the
`area_type` column, `_compute_oee` returns availability, performance and
quality each within `[0, 100]`, and whenever all three are positive the
returned `oee` equals `round(availability * performance * quality /
10000, 1)`. -/
theorem C1_oee_bounds (cache : Cache) (df : OeeFrame) (dtf : DownFrame)
    (lq : List Int) (p : Params)
    (h1 : df.rows ≠ []) (h2 : df.hasAreaType = true) :
    (0 ≤ (computeOee cache df dtf lq p).availability ∧
      (computeOee cache df dtf lq p).availability ≤ 100) ∧
    (0 ≤ (computeOee cache df dtf lq p).performance ∧
      (computeOee cache df dtf lq p).performance ≤ 100) ∧
    (0 ≤ (computeOee cache df dtf lq p).quality ∧
      (computeOee cache df dtf lq p).quality ≤ 100) ∧
    (0 < (computeOee cache df dtf lq p).availability →
     0 < (computeOee cache df dtf lq p).performance →
     0 < (computeOee cache df dtf lq p).quality →
      (computeOee cache df dtf lq p).oee =
        pyRound1 ((computeOee cache df dtf lq p).availability *
          (computeOee cache df dtf lq p).performance *
          (computeOee cache df dtf lq p).quality / 10000)) := by
  unfold computeOee
  rw [if_pos (⟨h1, h2⟩ : df.rows ≠ [] ∧ df.hasAreaType = true)]
  dsimp only
  refine ⟨?_, ?_, ?_, ?_⟩
  · split_ifs
    all_goals first
      | exact clamp_bounds _
      | exact ⟨le_refl 0, by norm_num⟩
  · split_ifs
    all_goals try exact ⟨le_refl 0, by norm_num⟩
    all_goals
      rename_i hte
    all_goals
      exact min100_bounds (pyRound1_nonneg
        (mul_nonneg (div_nonneg (Nat.cast_nonneg _) (le_of_lt hte))
          (by norm_num)))
  · split_ifs
    all_goals try exact ⟨by norm_num, le_refl 100⟩
    all_goals
      rename_i hent
    all_goals
      exact min100_bounds (pyRound1_nonneg
        (mul_nonneg (div_nonneg (Nat.cast_nonneg _) (le_of_lt hent))
          (by norm_num)))
  · intro ha hp hq
    rw [if_pos ⟨ha, hp, hq⟩]
    congr 1
    ring

/-- Cache of the C1 witness scenario: one dual-area line with rate
1 unit/min and one 60-minute shift. -/
def c1Cache : Cache :=
  { lines := [(1, ⟨some 1, some 300, true⟩)],
    areas := [⟨1, 1, "input"⟩, ⟨2, 1, "output"⟩],
    shifts := [(1, ⟨some (1, 0), some (2, 0), false⟩)] }

/-- Detections of the C1 witness scenario: two inputs, one output. -/
def c1Df : OeeFrame := ⟨true, true, [⟨1, "input"⟩, ⟨1, "input"⟩, ⟨1, "output"⟩]⟩

/-- Downtime of the C1 witness scenario: one 600-second event. -/
def c1Dtf : DownFrame := ⟨true, true, [⟨1, 600⟩]⟩

/-- Params of the C1 witness scenario: no shift filter, no daterange. -/
def c1Params : Params := ⟨none, none⟩

theorem c1_eval : computeOee c1Cache c1Df c1Dtf [1] c1Params =
    { oee := 4/5, availability := 833/10, performance := 2, quality := 50,
      scheduled_minutes := 60, downtime_minutes := 10 } := by
  have e50 : pyRound1 50 = 50 := by norm_num [pyRound1, roundHalfEven]
  have e2 : pyRound1 2 = 2 := by norm_num [pyRound1, roundHalfEven]
  have e60 : pyRound1 60 = 60 := by norm_num [pyRound1, roundHalfEven]
  have e10 : pyRound1 10 = 10 := by norm_num [pyRound1, roundHalfEven]
  have eav : pyRound1 (250/3) = 833/10 := by
    norm_num [pyRound1, roundHalfEven]
  have eoee : pyRound1 (833/1000) = 4/5 := by
    norm_num [pyRound1, roundHalfEven]
  simp [computeOee, c1Cache, c1Df, c1Dtf, c1Params,
    getLinesWithInputOutput, getAreasByLine, calculateScheduledMinutes,
    scheduledFromSelected, shiftDurationMinutes, countDays, lookupShift,
    totalExpected, lookupLine, lineDowntimeMinutes]
  norm_num [e50, e2, e60, e10, eav, eoee, min_def, max_def]

/-- Witness for C1 at the concrete scenario: bounds hold and, all three
factors being positive there, the OEE product identity holds. -/
theorem C1_oee_bounds_witness :
    (0 ≤ (computeOee c1Cache c1Df c1Dtf [1] c1Params).availability ∧
      (computeOee c1Cache c1Df c1Dtf [1] c1Params).availability ≤ 100) ∧
    (0 ≤ (computeOee c1Cache c1Df c1Dtf [1] c1Params).performance ∧
      (computeOee c1Cache c1Df c1Dtf [1] c1Params).performance ≤ 100) ∧
    (0 ≤ (computeOee c1Cache c1Df c1Dtf [1] c1Params).quality ∧
      (computeOee c1Cache c1Df c1Dtf [1] c1Params).quality ≤ 100) ∧
    (computeOee c1Cache c1Df c1Dtf [1] c1Params).oee =
      pyRound1 ((computeOee c1Cache c1Df c1Dtf [1] c1Params).availability *
        (computeOee c1Cache c1Df c1Dtf [1] c1Params).performance *
        (computeOee c1Cache c1Df c1Dtf [1] c1Params).quality / 10000) :=
  have h := C1_oee_bounds c1Cache c1Df c1Dtf [1] c1Params
    (by decide) (by decide)
  ⟨h.1, h.2.1, h.2.2.1,
    h.2.2.2 (by rw [c1_eval]; norm_num) (by rw [c1_eval]; norm_num)
      (by rw [c1_eval]; norm_num)⟩

/-- Cache of the C8 scenarios: line 1 has only an `output` area, so no
queried line is dual-area. -/
def c8Cache : Cache :=
  { lines := [(1, ⟨some 1, some 300, true⟩)],
    areas := [⟨1, 1, "output"⟩],
    shifts := [(1, ⟨some (1, 0), some (2, 0), false⟩)] }

/-- Counterexample to C8 as stated: on a request over the single-area
line 1 whose detection set is empty, `_compute_oee` never enters its
main branch and returns `quality = 0`, not 100. -/
theorem C8_quality_counterexample :
    getLinesWithInputOutput c8Cache [1] = [] ∧
    (computeOee c8Cache ⟨true, true, []⟩ ⟨true, true, []⟩ [1]
        ⟨none, none⟩).quality = 0 ∧
    ¬ (computeOee c8Cache ⟨true, true, []⟩ ⟨true, true, []⟩ [1]
        ⟨none, none⟩).quality = 100 := by
  refine ⟨by decide, ?_, ?_⟩ <;>
    simp [computeOee, pyRound1, roundHalfEven]

/-- C8 (amended): on a request whose queried line set contains no
dual-area line, and whose enriched detection set is non-empty and
carries the `area_type` column, the quality computed by `_compute_oee`
(the value `KpiQuality` reports) is exactly 100. -/
theorem C8_quality_no_dual (cache : Cache) (df : OeeFrame)
    (dtf : DownFrame) (lq : List Int) (p : Params)
    (h1 : df.rows ≠ []) (h2 : df.hasAreaType = true)
    (hdual : getLinesWithInputOutput cache lq = []) :
    (computeOee cache df dtf lq p).quality = 100 := by
  unfold computeOee
  rw [if_pos (⟨h1, h2⟩ : df.rows ≠ [] ∧ df.hasAreaType = true)]
  dsimp only
  simp [hdual]

/-- Witness for the amended C8 at a concrete input: one output-only
detection on the single-area line 1 gives quality exactly 100. -/
theorem C8_quality_no_dual_witness :
    (computeOee c8Cache ⟨true, true, [⟨1, "output"⟩]⟩ ⟨true, true, []⟩ [1]
        ⟨none, none⟩).quality = 100 :=
  C8_quality_no_dual c8Cache ⟨true, true, [⟨1, "output"⟩]⟩ ⟨true, true, []⟩
    [1] ⟨none, none⟩ (by decide) rfl (by decide)

/-! ## FilterEngine input validation
    (`new_app/services/filters/engine.py` and
     `new_app/services/filters/types/*.py`)

Python parameter values are embedded as `PValue` (with `vnone` for
`None`); user params, cleaned params and the errors dict are association
lists with Python dict semantics (`dictGet`, `dictUpdate`).  A filter
instance is its `param_name`, its `validate` predicate and its
`get_default()` value; `validate` and `get_default` of every concrete
filter class are deterministic functions of the filter's config and the
cache snapshot, which is what the `MFilter` record captures. -/

/-- A user-supplied parameter value (`None`, int, str, bool). -/
inductive PValue
  | vnone
  | vint (n : Int)
  | vstr (s : String)
  | vbool (b : Bool)
  deriving DecidableEq, Repr

/-- Python `dict.get(key)`: the stored value, or `None` when missing. -/
def dictGet : List (String × PValue) → String → PValue
  | [], _ => .vnone
  | (k', v) :: rest, k => if k' = k then v else dictGet rest k

/-- Python `d[key] = value`: overwrite in place at the first occurrence
of the key, else append (insertion order preserved). -/
def dictUpdate {β : Type} : List (String × β) → String → β → List (String × β)
  | [], k, v => [(k, v)]
  | (k', v') :: rest, k, v =>
      if k' = k then (k', v) :: rest else (k', v') :: dictUpdate rest k v

/-- One instantiated filter as seen by `validate_input`. -/
structure MFilter where
  class_name : String
  param_name : String
  validate : PValue → Bool
  default : PValue

/-- The two raw-value lines of the loop body:
`raw = user_params.get(pname)`, `if raw is None: raw = flt.get_default()`. -/
def effRaw (user : List (String × PValue)) (flt : MFilter) : PValue :=
  if dictGet user flt.param_name = .vnone then flt.default
  else dictGet user flt.param_name

/-- The rest of the loop body: record an error or a cleaned value. -/
def validateStep (user : List (String × PValue))
    (acc : List (String × String) × List (String × PValue))
    (flt : MFilter) :
    List (String × String) × List (String × PValue) :=
  if flt.validate (effRaw user flt) then
    (acc.1, dictUpdate acc.2 flt.param_name (effRaw user flt))
  else
    (dictUpdate acc.1 flt.param_name
      ("Valor inválido para " ++ flt.class_name), acc.2)

/-- The `for flt in self.get_all()` loop of `validate_input`. -/
def viAux (user : List (String × PValue)) :
    List MFilter → List (String × String) × List (String × PValue) →
    List (String × String) × List (String × PValue)
  | [], acc => acc
  | flt :: rest, acc => viAux user rest (validateStep user acc flt)

/-- `FilterEngine.validate_input(user_params)` → `(errors, cleaned)`;
`valid` is `errors = []`. -/
def validate_input (filters : List MFilter)
    (user : List (String × PValue)) :
    List (String × String) × List (String × PValue) :=
  viAux user filters ([], [])

theorem dictUpdate_ne_nil {β : Type} (l : List (String × β)) (k : String)
    (v : β) : dictUpdate l k v ≠ [] := by
  cases l with
  | nil => simp [dictUpdate]
  | cons p rest =>
      rw [dictUpdate]
      split <;> simp

theorem viAux_errors_nil (user : List (String × PValue))
    (fs : List MFilter)
    (acc : List (String × String) × List (String × PValue))
    (h : (viAux user fs acc).1 = []) :
    acc.1 = [] ∧ ∀ f ∈ fs, f.validate (effRaw user f) = true := by
  induction fs generalizing acc with
  | nil => exact ⟨h, by simp⟩
  | cons f rest ih =>
      rw [viAux] at h
      by_cases hv : f.validate (effRaw user f) = true
      · have hstep : validateStep user acc f =
            (acc.1, dictUpdate acc.2 f.param_name (effRaw user f)) := by
          rw [validateStep, if_pos hv]
        rw [hstep] at h
        obtain ⟨h1, h2⟩ := ih _ h
        exact ⟨h1, by
          intro g hg
          rcases List.mem_cons.mp hg with hgf | hgr
          · subst hgf; exact hv
          · exact h2 g hgr⟩
      · have hstep : validateStep user acc f =
            (dictUpdate acc.1 f.param_name
              ("Valor inválido para " ++ f.class_name), acc.2) := by
          rw [validateStep, if_neg hv]
        rw [hstep] at h
        obtain ⟨h1, _⟩ := ih _ h
        exact absurd h1 (dictUpdate_ne_nil _ _ _)

theorem dictUpdate_append {β : Type} (l : List (String × β)) (k : String)
    (v : β) (h : ∀ p ∈ l, p.1 ≠ k) : dictUpdate l k v = l ++ [(k, v)] := by
  induction l with
  | nil => rfl
  | cons p rest ih =>
      rw [dictUpdate, if_neg (h p (by simp))]
      rw [ih (fun q hq => h q (by simp [hq]))]
      simp

theorem viAux_all_valid (user : List (String × PValue)) (fs : List MFilter)
    (acc : List (String × String) × List (String × PValue))
    (hval : ∀ f ∈ fs, f.validate (effRaw user f) = true)
    (hdis : ∀ p ∈ acc.2, ∀ f ∈ fs, p.1 ≠ f.param_name)
    (hnodup : (fs.map MFilter.param_name).Nodup) :
    viAux user fs acc =
      (acc.1, acc.2 ++ fs.map (fun f => (f.param_name, effRaw user f))) := by
  induction fs generalizing acc with
  | nil => simp [viAux]
  | cons f rest ih =>
      rw [viAux]
      have hstep : validateStep user acc f =
          (acc.1, dictUpdate acc.2 f.param_name (effRaw user f)) := by
        rw [validateStep, if_pos (hval f (by simp))]
      rw [hstep,
        dictUpdate_append acc.2 f.param_name (effRaw user f)
          (fun p hp => hdis p hp f (by simp))]
      have hrest := ih (acc.1, acc.2 ++ [(f.param_name, effRaw user f)])
        (fun g hg => hval g (by simp [hg]))
        (by
          intro p hp g hg
          rcases List.mem_append.mp hp with hp1 | hp2
          · exact hdis p hp1 g (by simp [hg])
          · have hpk : p = (f.param_name, effRaw user f) := by
              simpa using hp2
            subst hpk
            simp only [List.map_cons, List.nodup_cons, List.mem_map]
              at hnodup
            intro hcontra
            exact hnodup.1 ⟨g, hg, hcontra.symm⟩)
        (by exact hnodup.of_cons)
      rw [hrest]
      simp

theorem dictGet_map_self (user : List (String × PValue))
    (fs : List MFilter) (f : MFilter) (hf : f ∈ fs)
    (hnodup : (fs.map MFilter.param_name).Nodup) :
    dictGet (fs.map (fun g => (g.param_name, effRaw user g))) f.param_name =
      effRaw user f := by
  induction fs with
  | nil => simp at hf
  | cons g rest ih =>
      simp only [List.map_cons]
      rcases List.mem_cons.mp hf with hfg | hfr
      · subst hfg
        rw [dictGet, if_pos rfl]
      · rw [dictGet]
        simp only [List.map_cons, List.nodup_cons, List.mem_map] at hnodup
        have hne : g.param_name ≠ f.param_name := by
          intro hcontra
          exact hnodup.1 ⟨f, hfr, hcontra.symm⟩
        rw [if_neg hne]
        exact ih hfr hnodup.2

theorem effRaw_cleaned (user : List (String × PValue)) (fs : List MFilter)
    (f : MFilter) (hf : f ∈ fs)
    (hnodup : (fs.map MFilter.param_name).Nodup) :
    effRaw (fs.map (fun g => (g.param_name, effRaw user g))) f =
      effRaw user f := by
  have hget := dictGet_map_self user fs f hf hnodup
  unfold effRaw at hget ⊢
  rw [hget]
  by_cases h : dictGet user f.param_name = PValue.vnone
  · simp only [if_pos h]
    split <;> rfl
  · simp only [if_neg h]

/-- C5 (amended): `validate_input` is idempotent on inputs it validates
cleanly — the filters' `param_name`s being pairwise distinct, as those
of every registry filter are, if the first call returns no errors then
re-validating its cleaned dict returns the same cleaned dict and an
empty errors dict. -/
theorem C5_validate_input_idempotent (fs : List MFilter)
    (user : List (String × PValue))
    (hnodup : (fs.map MFilter.param_name).Nodup)
    (hvalid : (validate_input fs user).1 = []) :
    validate_input fs (validate_input fs user).2 =
      ([], (validate_input fs user).2) := by
  have hall := (viAux_errors_nil user fs ([], []) hvalid).2
  have h1 : validate_input fs user =
      ([], fs.map (fun f => (f.param_name, effRaw user f))) := by
    unfold validate_input
    rw [viAux_all_valid user fs ([], []) hall (by simp) hnodup]
    simp
  rw [h1]
  have hall2 : ∀ f ∈ fs,
      f.validate (effRaw (fs.map (fun g => (g.param_name, effRaw user g))) f)
        = true := by
    intro f hf
    rw [effRaw_cleaned user fs f hf hnodup]
    exact hall f hf
  unfold validate_input
  rw [viAux_all_valid _ fs ([], []) hall2 (by simp) hnodup]
  simp only [List.nil_append]
  congr 1
  refine List.map_congr_left ?_
  intro f hf
  rw [effRaw_cleaned user fs f hf hnodup]

/-- Python `str(value)` on the embedded values, as used by
`DropdownFilter.validate`'s string-coerced comparison. -/
def pvalueStr : PValue → String
  | .vnone => "None"
  | .vint n => toString n
  | .vstr s => s
  | .vbool b => if b then "True" else "False"

/-- `DropdownFilter.validate(value)`: `None` is accepted iff the filter
is not required; otherwise the value must match some option, comparing
directly or via `str`. -/
def dropdownValidate (required : Bool) (opts : List PValue)
    (v : PValue) : Bool :=
  if v = .vnone then !required
  else opts.any (fun o =>
    decide (o = v) || decide (pvalueStr o = pvalueStr v))

/-- The `ShiftFilter` instance over a cache holding the single shift id
1: dropdown on `shift_id`, not required, default `None` (registry
entry), options loaded from the cached shifts. -/
def shiftFilter : MFilter :=
  { class_name := "ShiftFilter", param_name := "shift_id",
    validate := dropdownValidate false [.vint 1], default := .vnone }

/-- Counterexample to C5 as stated: with the `ShiftFilter` active and
`user_params = {shift_id: 99}` (an invalid option), the first call
returns `cleaned = {}` with an error; the second call on `{}` falls
back to the default `None`, which validates, so the second cleaned dict
gains a `shift_id` key and is not equal to the first. -/
theorem C5_validate_input_counterexample :
    (validate_input [shiftFilter] [("shift_id", PValue.vint 99)]).1 ≠ [] ∧
    (validate_input [shiftFilter]
        (validate_input [shiftFilter] [("shift_id", PValue.vint 99)]).2).2 ≠
      (validate_input [shiftFilter] [("shift_id", PValue.vint 99)]).2 := by
  constructor <;> decide

/-- Witness for the amended C5: with the `ShiftFilter` active and the
valid input `{shift_id: 1}`, re-validating the cleaned dict returns it
unchanged with no errors. -/
theorem C5_validate_input_idempotent_witness :
    validate_input [shiftFilter]
        (validate_input [shiftFilter] [("shift_id", PValue.vint 1)]).2 =
      ([], (validate_input [shiftFilter] [("shift_id", PValue.vint 1)]).2) :=
  C5_validate_input_idempotent [shiftFilter]
    [("shift_id", PValue.vint 1)] (by simp) (by decide)

/-! ## WidgetEngine and ResponseAssembler
    (`new_app/services/widgets/engine.py`,
     `new_app/services/widgets/base.py`,
     `new_app/services/orchestrator/assembler.py`)

A widget class is modelled by the behaviour of its `process()` call on a
context: it either returns a result body or raises (`Except.error`).
Every concrete widget builds its `WidgetResult` through
`BaseWidget._result` / `_empty`, which set `widget_id = ctx.widget_id`
and `widget_name = ctx.display_name`; `serializeResult` captures that
together with `WidgetResult.to_dict`.  The master DataFrame is
abstracted to its column list and emptiness, which is all `_scope_data`
inspects. -/

/-- Column view of the master enriched DataFrame. -/
structure MasterDF where
  cols : List String
  isEmpty : Bool
  deriving DecidableEq, Repr

/-- One `WIDGET_REGISTRY` entry (fields `_process_single` reads). -/
structure RegistryEntry where
  required_columns : List String
  default_config : List (String × PValue)

/-- One cached `widget_catalog` row. -/
structure CatalogInfo where
  widget_name : String
  description : String
  deriving DecidableEq, Repr

/-- The serialized `WidgetResult.to_dict()`. -/
structure WidgetResultDict where
  widget_id : Int
  widget_name : String
  widget_type : String
  data : PValue
  metadata : List (String × PValue)
  deriving DecidableEq, Repr

/-- The body a widget's `process()` produces (its id and display name
are taken from the context by `_result`). -/
structure WidgetBody where
  widget_type : String
  data : PValue
  metadata : List (String × PValue)

/-- The `WidgetContext` built by `_process_single`. -/
structure WContext where
  widget_id : Int
  widget_name : String
  display_name : String
  data : MasterDF
  downtime : DownFrame
  lines_queried : List Int
  params : List (String × PValue)
  config : List (String × PValue)

/-- The widget environment: `WIDGET_REGISTRY`, the cached widget
catalog, and class resolution (`_resolve_class`) together with each
resolved class's `process()` behaviour. -/
structure WidgetEnv where
  registry : String → Option RegistryEntry
  catalog : List (Int × CatalogInfo)
  classes : String → Option (WContext → Except String WidgetBody)

/-- `WidgetEngine._error_result(class_name, error)`. -/
def errorResult (class_name err : String) : WidgetResultDict :=
  { widget_id := 0, widget_name := class_name, widget_type := "error",
    data := .vnone,
    metadata := [("error", .vbool true), ("message", .vstr err)] }

/-- `WidgetEngine._resolve_catalog_info(class_name, widget_catalog)`:
first catalog row whose `widget_name` matches, else `(0, class_name)`. -/
def resolveCatalogInfo (class_name : String)
    (catalog : List (Int × CatalogInfo)) : Int × String :=
  match catalog.find? (fun kv => kv.2.widget_name = class_name) with
  | some kv => (kv.1, kv.2.description)
  | none => (0, class_name)

/-- The `for essential in ("detected_at", "line_id")` step of
`_scope_data`. -/
def addEssential (masterCols available : List String)
    (essential : String) : List String :=
  if masterCols.contains essential ∧ ¬ available.contains essential then
    available ++ [essential]
  else available

/-- `WidgetEngine._scope_data(class_name, registry_entry, master_df)`. -/
def scopeData (required : List String) (master : MasterDF) : MasterDF :=
  if master.isEmpty then master
  else if required = [] then master
  else
    if addEssential master.cols
        (addEssential master.cols
          (required.filter (fun c => master.cols.contains c)) "detected_at")
        "line_id" ≠ [] then
      { cols := addEssential master.cols
          (addEssential master.cols
            (required.filter (fun c => master.cols.contains c)) "detected_at")
          "line_id",
        isEmpty := master.isEmpty }
    else master

/-- `BaseWidget._result(...).to_dict()`: id and display name come from
the context. -/
def serializeResult (ctx : WContext) (b : WidgetBody) : WidgetResultDict :=
  { widget_id := ctx.widget_id, widget_name := ctx.display_name,
    widget_type := b.widget_type, data := b.data, metadata := b.metadata }

/-- `WidgetEngine._process_single(class_name, ...)`. -/
def processSingle (env : WidgetEnv) (det : MasterDF) (dt : DownFrame)
    (ls : List Int) (cl : List (String × PValue))
    (class_name : String) : WidgetResultDict :=
  match env.registry class_name with
  | none => errorResult class_name "Widget not registered"
  | some entry =>
      match env.classes class_name with
      | none =>
          errorResult class_name
            ("Class '" ++ class_name ++ "' not found in widget types")
      | some proc =>
          let ctx : WContext :=
            { widget_id := (resolveCatalogInfo class_name env.catalog).1,
              widget_name := class_name,
              display_name := (resolveCatalogInfo class_name env.catalog).2,
              data := scopeData entry.required_columns det,
              downtime := dt, lines_queried := ls, params := cl,
              config := entry.default_config }
          match proc ctx with
          | .ok body => serializeResult ctx body
          | .error msg => errorResult class_name msg

/-- `WidgetEngine.process_widgets(widget_names, ...)`: one result per
requested name, in order. -/
def processWidgets (env : WidgetEnv) (det : MasterDF) (dt : DownFrame)
    (ls : List Int) (cl : List (String × PValue))
    (names : List String) : List WidgetResultDict :=
  names.map (processSingle env det dt ls cl)

/-- C6: `process_widgets` returns exactly one result per requested
name, in request order; a widget whose `process()` raises is converted
to an `_error_result` with `widget_type = "error"` carrying the
message, and every other widget's result is exactly what it would have
been had the failing widget not been requested. -/
theorem C6_process_isolation (env : WidgetEnv) (det : MasterDF)
    (dt : DownFrame) (ls : List Int) (cl : List (String × PValue))
    (names l1 l2 : List String) (w msg : String)
    (entry : RegistryEntry) (proc : WContext → Except String WidgetBody)
    (hreg : env.registry w = some entry)
    (hcls : env.classes w = some proc)
    (hraise : ∀ ctx, proc ctx = Except.error msg) :
    (processWidgets env det dt ls cl names).length = names.length ∧
    (∀ i : ℕ, (processWidgets env det dt ls cl names)[i]? =
      (names[i]?).map (processSingle env det dt ls cl)) ∧
    (processSingle env det dt ls cl w = errorResult w msg ∧
      (processSingle env det dt ls cl w).widget_type = "error") ∧
    processWidgets env det dt ls cl (l1 ++ w :: l2) =
      processWidgets env det dt ls cl l1 ++
        processSingle env det dt ls cl w ::
          processWidgets env det dt ls cl l2 ∧
    processWidgets env det dt ls cl (l1 ++ l2) =
      processWidgets env det dt ls cl l1 ++
        processWidgets env det dt ls cl l2 := by
  have herr : processSingle env det dt ls cl w = errorResult w msg := by
    rw [processSingle, hreg, hcls]
    dsimp only
    rw [hraise]
  refine ⟨List.length_map _ _, ?_, ⟨herr, by rw [herr]; rfl⟩, ?_, ?_⟩
  · intro i
    exact List.getElem?_map _ _ i
  · simp [processWidgets]
  · simp [processWidgets]

/-- Witness for C6: an environment with a single always-raising widget
class `"Boom"`. -/
def boomEnv : WidgetEnv :=
  { registry := fun n =>
      if n = "Boom" then some ⟨[], []⟩ else none,
    catalog := [],
    classes := fun n =>
      if n = "Boom" then some (fun _ => Except.error "boom") else none }

/-- Witness for C6 at the concrete environment: the raising widget
becomes an error result and dropping it leaves the other results. -/
theorem C6_process_isolation_witness :
    (processWidgets boomEnv ⟨[], true⟩ ⟨true, true, []⟩ [] []
      ["Boom"]).length = ["Boom"].length ∧
    (∀ i : ℕ, (processWidgets boomEnv ⟨[], true⟩ ⟨true, true, []⟩ [] []
        ["Boom"])[i]? =
      ((["Boom"] : List String)[i]?).map
        (processSingle boomEnv ⟨[], true⟩ ⟨true, true, []⟩ [] [])) ∧
    (processSingle boomEnv ⟨[], true⟩ ⟨true, true, []⟩ [] [] "Boom" =
        errorResult "Boom" "boom" ∧
      (processSingle boomEnv ⟨[], true⟩ ⟨true, true, []⟩ [] []
        "Boom").widget_type = "error") ∧
    processWidgets boomEnv ⟨[], true⟩ ⟨true, true, []⟩ [] []
        ([] ++ "Boom" :: []) =
      processWidgets boomEnv ⟨[], true⟩ ⟨true, true, []⟩ [] [] [] ++
        processSingle boomEnv ⟨[], true⟩ ⟨true, true, []⟩ [] [] "Boom" ::
          processWidgets boomEnv ⟨[], true⟩ ⟨true, true, []⟩ [] [] [] ∧
    processWidgets boomEnv ⟨[], true⟩ ⟨true, true, []⟩ [] [] ([] ++ []) =
      processWidgets boomEnv ⟨[], true⟩ ⟨true, true, []⟩ [] [] [] ++
        processWidgets boomEnv ⟨[], true⟩ ⟨true, true, []⟩ [] [] [] :=
  C6_process_isolation boomEnv ⟨[], true⟩ ⟨true, true, []⟩ [] []
    ["Boom"] [] [] "Boom" "boom" ⟨[], []⟩ (fun _ => Except.error "boom")
    rfl rfl (fun _ => rfl)

/-- `_index_widgets(widgets_result)`: key the result list by
`str(widget_id)` with Python dict insertion (every result produced by
the engine carries a `widget_id`, so the `widget_name` fallback of the
`w.get` chain is never taken). -/
def indexWidgets (ws : List WidgetResultDict) :
    List (String × WidgetResultDict) :=
  ws.foldl (fun acc w => dictUpdate acc (toString w.widget_id) w) []

/-- The response fields of `ResponseAssembler.assemble` that the claims
concern (period, interval and timestamps omitted). -/
structure DashboardResponse where
  widgets : List (String × WidgetResultDict)
  total_detections : ℕ
  total_downtime_events : ℕ
  lines_queried : List Int
  is_multi_line : Bool
  widget_count : ℕ

/-- `ResponseAssembler.assemble(ctx, widgets_result, elapsed)`:
`widget_count` is the length of the result list, `widgets` the
`_index_widgets` dict. -/
def assemble (lineIds : List Int) (totalDet totalDt : ℕ)
    (ws : List WidgetResultDict) : DashboardResponse :=
  { widgets := indexWidgets ws,
    total_detections := totalDet,
    total_downtime_events := totalDt,
    lines_queried := lineIds,
    is_multi_line := decide (1 < lineIds.length),
    widget_count := ws.length }

/-- C10: the response keys widgets by `str(widget_id)`; two processed
results with the same id — e.g. two class names absent from the widget
catalog, which both get the fallback id 0 — collapse to the
last-processed one in the `widgets` map, while `metadata.widget_count`
still counts every processed widget, so `widget_count` can exceed the
number of map entries. -/
theorem C10_duplicate_widget_ids (env : WidgetEnv) (det : MasterDF)
    (dt : DownFrame) (ls : List Int) (cl : List (String × PValue))
    (td tdt : ℕ) (n1 n2 : String) (e1 e2 : RegistryEntry)
    (p1 p2 : WContext → Except String WidgetBody) (b1 b2 : WidgetBody)
    (hreg1 : env.registry n1 = some e1)
    (hreg2 : env.registry n2 = some e2)
    (hcls1 : env.classes n1 = some p1)
    (hcls2 : env.classes n2 = some p2)
    (hok1 : ∀ ctx, p1 ctx = Except.ok b1)
    (hok2 : ∀ ctx, p2 ctx = Except.ok b2)
    (hcat1 : ∀ kv ∈ env.catalog, kv.2.widget_name ≠ n1)
    (hcat2 : ∀ kv ∈ env.catalog, kv.2.widget_name ≠ n2) :
    (processSingle env det dt ls cl n1).widget_id = 0 ∧
    (processSingle env det dt ls cl n2).widget_id = 0 ∧
    (assemble ls td tdt
      (processWidgets env det dt ls cl [n1, n2])).widget_count = 2 ∧
    (assemble ls td tdt
        (processWidgets env det dt ls cl [n1, n2])).widgets =
      [("0", processSingle env det dt ls cl n2)] ∧
    (∀ ws : List WidgetResultDict,
      (assemble ls td tdt ws).widget_count = ws.length) := by
  have hfind1 : env.catalog.find? (fun kv => kv.2.widget_name = n1)
      = none := by
    apply List.find?_eq_none.mpr
    intro kv hkv
    simp [hcat1 kv hkv]
  have hfind2 : env.catalog.find? (fun kv => kv.2.widget_name = n2)
      = none := by
    apply List.find?_eq_none.mpr
    intro kv hkv
    simp [hcat2 kv hkv]
  have hr1 : (processSingle env det dt ls cl n1).widget_id = 0 := by
    rw [processSingle, hreg1, hcls1]
    dsimp only
    rw [hok1]
    simp [serializeResult, resolveCatalogInfo, hfind1]
  have hr2 : (processSingle env det dt ls cl n2).widget_id = 0 := by
    rw [processSingle, hreg2, hcls2]
    dsimp only
    rw [hok2]
    simp [serializeResult, resolveCatalogInfo, hfind2]
  refine ⟨hr1, hr2, by simp [assemble, processWidgets], ?_, fun ws => rfl⟩
  have hts1 : toString (processSingle env det dt ls cl n1).widget_id
      = "0" := by rw [hr1]; rfl
  have hts2 : toString (processSingle env det dt ls cl n2).widget_id
      = "0" := by rw [hr2]; rfl
  simp [assemble, indexWidgets, processWidgets, dictUpdate, hts1, hts2]

/-- Witness environment for C10: two registered widget classes absent
from the (empty) catalog, each returning a fixed body. -/
def dupEnv : WidgetEnv :=
  { registry := fun n =>
      if n = "KpiA" ∨ n = "KpiB" then some ⟨[], []⟩ else none,
    catalog := [],
    classes := fun n =>
      if n = "KpiA" then some (fun _ => Except.ok ⟨"kpi", .vint 1, []⟩)
      else if n = "KpiB" then some (fun _ => Except.ok ⟨"kpi", .vint 2, []⟩)
      else none }

/-- Witness for C10 at the concrete environment: both uncataloged
widgets get id 0, the map keeps only the second, the count stays 2. -/
theorem C10_duplicate_widget_ids_witness :
    (processSingle dupEnv ⟨[], true⟩ ⟨true, true, []⟩ [] []
      "KpiA").widget_id = 0 ∧
    (processSingle dupEnv ⟨[], true⟩ ⟨true, true, []⟩ [] []
      "KpiB").widget_id = 0 ∧
    (assemble [] 0 0 (processWidgets dupEnv ⟨[], true⟩ ⟨true, true, []⟩
      [] [] ["KpiA", "KpiB"])).widget_count = 2 ∧
    (assemble [] 0 0 (processWidgets dupEnv ⟨[], true⟩ ⟨true, true, []⟩
        [] [] ["KpiA", "KpiB"])).widgets =
      [("0", processSingle dupEnv ⟨[], true⟩ ⟨true, true, []⟩ [] []
        "KpiB")] ∧
    (∀ ws : List WidgetResultDict,
      (assemble [] 0 0 ws).widget_count = ws.length) :=
  C10_duplicate_widget_ids dupEnv ⟨[], true⟩ ⟨true, true, []⟩ [] [] 0 0
    "KpiA" "KpiB" ⟨[], []⟩ ⟨[], []⟩
    (fun _ => Except.ok ⟨"kpi", .vint 1, []⟩)
    (fun _ => Except.ok ⟨"kpi", .vint 2, []⟩)
    ⟨"kpi", .vint 1, []⟩ ⟨"kpi", .vint 2, []⟩
    rfl rfl rfl rfl (fun _ => rfl) (fun _ => rfl)
    (by simp [dupEnv]) (by simp [dupEnv])

/-! ## MetadataCache reload under cooperative concurrency
    (`new_app/core/cache.py`)

`load_all` holds an `asyncio.Lock`, clears `self._cache` in place, sets
`_current_tenant`, and then awaits one DB query per reference table,
assigning `self._cache[key]` after each query returns.  Under asyncio's
cooperative scheduling every `await` inside the lock is a point where
other tasks run; readers (`_get`) are synchronous, never take the lock,
and read `self._cache` directly.  The loader is therefore a sequence of
atomic steps — step 0 clears and switches the tenant, step `i + 1`
installs the `i`-th table — and a reader can observe the state after
any prefix of steps.  `data tenant key` abstracts the rows the tenant
DB returns for a table. -/

/-- The cache keys `load_all` populates, in load order
(`_load_tenant_metadata` then `_load_global_metadata`). -/
def tableKeys : List String :=
  ["production_lines", "areas", "products", "shifts", "filters",
   "failures", "incidents", "widget_catalog"]

/-- The mutable singleton state: `_current_tenant` and `_cache`. -/
structure CacheState where
  current_tenant : Option String
  cache : List (String × ℕ)
  deriving DecidableEq, Repr

/-- `MetadataCache._get(key)` (the entry's data, `none` standing for
the `{}` returned when the key is missing). -/
def tblGet : List (String × ℕ) → String → Option ℕ
  | [], _ => none
  | (k', v) :: rest, k => if k' = k then some v else tblGet rest k

/-- One atomic step of the loader for tenant `T`: step 0 is
`self._cache.clear(); self._current_tenant = db_name`; step `i + 1`
is the assignment `self._cache[tableKeys[i]] = CacheEntry(...)` that
follows the `i`-th awaited query. -/
def loadStep (data : String → String → ℕ) (T : String)
    (s : CacheState) : ℕ → CacheState
  | 0 => { current_tenant := some T, cache := [] }
  | i + 1 =>
      match tableKeys[i]? with
      | some key => { s with cache := dictUpdate s.cache key (data T key) }
      | none => s

/-- State after the first `k` atomic steps of `load_all(T)` — the
states a concurrent reader can observe while the reload runs. -/
def runLoader (data : String → String → ℕ) (T : String)
    (s0 : CacheState) : ℕ → CacheState
  | 0 => s0
  | k + 1 => loadStep data T (runLoader data T s0 k) k

/-- A fully loaded snapshot for tenant `T` (all nine steps). -/
def fullSnapshot (data : String → String → ℕ) (T : String) : CacheState :=
  runLoader data T ⟨none, []⟩ 9

/-- Concrete tenant data for the C9 scenario: every table of tenant
`"A"` holds payload 1, every table of tenant `"B"` holds payload 2. -/
def c9Data (t : String) (_key : String) : ℕ := if t = "A" then 1 else 2

/-- The state a reader observes when it runs between the awaited query
of `_load_production_lines` and that of `_load_areas` during a switch
from tenant `"A"` to tenant `"B"`. -/
def c9Mid : CacheState := runLoader c9Data "B" (fullSnapshot c9Data "A") 2

/-- C9 fails on the code: during a tenant switch the in-place
clear-then-load lets a reader observe a state that is neither the fully
loaded previous tenant nor the fully loaded new one — here the new
tenant's `production_lines` are installed while `areas` is empty,
although both full snapshots have both tables. -/
theorem C9_cache_partial_state :
    tblGet c9Mid.cache "production_lines" = some 2 ∧
    tblGet c9Mid.cache "areas" = none ∧
    c9Mid.current_tenant = some "B" ∧
    tblGet (fullSnapshot c9Data "A").cache "areas" = some 1 ∧
    tblGet (fullSnapshot c9Data "B").cache "areas" = some 2 ∧
    c9Mid ≠ fullSnapshot c9Data "A" ∧
    c9Mid ≠ fullSnapshot c9Data "B" := by
  decide

end Dashboard
